import Mathlib

/-!
Shallow embedding of the `kitchen-fridge` calendar-item core:
the `Event` data model (`src/event.rs`) and the iCal builder
(`src/ical/builder.rs`), together with the parts of the surrounding
crate the builder depends on (the `Task` entity, `SyncStatus`, the
`ics` crate's line rendering), which are modelled from the
specification and from the expected output recorded in the repository's
own tests.

Conventions: `chrono::DateTime<Utc>` is modelled as a record of numeric
calendar fields, `url::Url` as a plain string, Rust `Option`/`Vec` as
Lean `Option`/`List`, and `Result<String, _>` as `Except String String`.
-/

set_option autoImplicit false

namespace KitchenFridge

/-- A UTC instant (`chrono::DateTime<Utc>`), reduced to the calendar
fields that the builder's two format strings (`%Y%m%dT%H%M%SZ` and
`%Y%m%d`) read. -/
structure DateTime where
  year : Nat
  month : Nat
  day : Nat
  hour : Nat
  minute : Nat
  second : Nat
  deriving DecidableEq, Repr

/-- Decimal digits of `n`, most significant first, via an explicit fuel
argument (the fuel `n + 1` always suffices). -/
def natDigitsAux : Nat → Nat → List Char
  | 0, _ => []
  | fuel + 1, n =>
    if n < 10 then [Nat.digitChar n]
    else natDigitsAux fuel (n / 10) ++ [Nat.digitChar (n % 10)]

/-- Decimal digits of `n`, most significant first. -/
def natDigits (n : Nat) : List Char :=
  natDigitsAux (n + 1) n

/-- Decimal rendering of `n`, zero-padded on the left to width `w`:
the behaviour of chrono's zero-padded numeric format specifiers. -/
def zeroPad (w n : Nat) : List Char :=
  List.replicate (w - (natDigits n).length) '0' ++ natDigits n

/-- `format_date_time` from `src/ical/builder.rs`: renders a UTC
instant as `YYYYMMDDTHHMMSSZ`. -/
def format_date_time (dt : DateTime) : String :=
  ⟨zeroPad 4 dt.year ++ zeroPad 2 dt.month ++ zeroPad 2 dt.day
    ++ ['T'] ++ zeroPad 2 dt.hour ++ zeroPad 2 dt.minute ++ zeroPad 2 dt.second ++ ['Z']⟩

/-- `format_date` from `src/ical/builder.rs`: renders a UTC instant as
the calendar date `YYYYMMDD`. -/
def format_date (dt : DateTime) : String :=
  ⟨zeroPad 4 dt.year ++ zeroPad 2 dt.month ++ zeroPad 2 dt.day⟩

/-- `url::Url`, modelled as its string serialization. -/
abbrev Url := String

/-- Modelled from the spec: `SyncStatus` (defined in `src/item.rs`,
which is not among the sources) — "enum {NotSynced, Synced,
LocallyModified, LocallyDeleted}" tracking reconciliation state. -/
inductive SyncStatus where
  | NotSynced
  | Synced
  | LocallyModified
  | LocallyDeleted
  deriving DecidableEq, Repr

/-- `ical::property::Property`: a pass-through iCal property — a name,
an optional value, and an optional ordered list of parameters, each a
parameter name with a list of parameter values. -/
structure Property where
  name : String
  params : Option (List (String × List String))
  value : Option String
  deriving DecidableEq, Repr

/-- The `Event` struct of `src/event.rs`. The Rust field `end` is
spelled `end_` (`end` is a Lean keyword). -/
structure Event where
  uid : String
  url : Url
  ical_prod_id : String
  sync_status : SyncStatus
  last_modified : DateTime
  creation_date : Option DateTime
  name : String
  full_day : Bool
  start : DateTime
  end_ : DateTime
  location : Option String
  repeat_ : Option (List (String × String))
  description : Option String
  extra_parameters : List Property
  deriving Repr

/-- `CompletionStatus` of a task, as matched on in
`src/ical/builder.rs`: either uncompleted, or completed with an
optional completion timestamp. -/
inductive CompletionStatus where
  | Uncompleted
  | Completed (completion_date : Option DateTime)
  deriving DecidableEq, Repr

/-- Modelled from the spec: the `Task` entity (defined in
`src/task.rs`, which is not among the sources) — it shares the common
item fields with `Event` and adds a `completion_status`; the fields
listed here are exactly those the builder's accessors read. -/
structure Task where
  uid : String
  url : Url
  ical_prod_id : String
  sync_status : SyncStatus
  last_modified : DateTime
  creation_date : Option DateTime
  name : String
  completion_status : CompletionStatus
  extra_parameters : List Property
  deriving Repr

/-- The `Item` variant over events and tasks (`src/item.rs`). -/
inductive Item where
  | Task (task : Task)
  | Event (event : Event)
  deriving Repr

/-- `Event::repeat_string` from `src/event.rs`: renders the stored
recurrence pairs as `KEY=VALUE` segments joined by `;`. -/
def Event.repeat_string (e : Event) : Option String :=
  e.repeat_.map (fun r => String.intercalate ";" (r.map (fun kv => kv.1 ++ "=" ++ kv.2)))

/-- `Event::set_sync_status` from `src/event.rs`. -/
def Event.set_sync_status (e : Event) (new_status : SyncStatus) : Event :=
  { e with sync_status := new_status }

/-- `Event::set_location` from `src/event.rs`. -/
def Event.set_location (e : Event) (location : String) : Event :=
  { e with location := some location }

/-- `Event::set_repeat` from `src/event.rs`. -/
def Event.set_repeat (e : Event) (repeat_ : List (String × String)) : Event :=
  { e with repeat_ := some repeat_ }

/-- `Event::set_description` from `src/event.rs`. -/
def Event.set_description (e : Event) (description : String) : Event :=
  { e with description := some description }

/-- `PartialEq for Event` from `src/event.rs`: field-by-field, with
`extra_parameters` not compared. -/
def Event.eq (a b : Event) : Bool :=
  a.uid == b.uid
    && a.url == b.url
    && a.ical_prod_id == b.ical_prod_id
    && a.sync_status == b.sync_status
    && a.last_modified == b.last_modified
    && a.creation_date == b.creation_date
    && a.name == b.name
    && a.full_day == b.full_day
    && a.start == b.start
    && a.end_ == b.end_
    && a.location == b.location
    && a.repeat_ == b.repeat_
    && a.description == b.description

/-- Modelled from the spec: `crate::ical::default_prod_id()` (not among
the sources) composes the product id from the configured organization
and product names in the standard `PRODID` pattern. -/
def default_prod_id (org product : String) : String :=
  "-//" ++ org ++ "//" ++ product ++ "//EN"

/-- `Event::new` from `src/event.rs`. The `url` crate's `join` and
`crate::utils::random_url` are external to the sources; they are taken
as function parameters (`urlJoin` may fail, `randomUrl` stands for the
randomized fallback URL generator). `Utc::now()` is taken as the
parameter `now`, and the configured organization/product names feeding
`default_prod_id` as `org`/`product`. -/
def Event.new (urlJoin : Url → String → Option Url) (randomUrl : Url → Url)
    (org product : String)
    (uid : String) (parent_calendar_url : Url) (name : String) (full_day : Bool)
    (start : DateTime) (end_ : DateTime) (sync_status : SyncStatus)
    (now : DateTime) : Event :=
  { uid := uid
    url := (urlJoin parent_calendar_url (uid ++ ".ics")).getD (randomUrl parent_calendar_url)
    ical_prod_id := default_prod_id org product
    sync_status := sync_status
    last_modified := now
    creation_date := some now
    name := name
    full_day := full_day
    start := start
    end_ := end_
    location := none
    repeat_ := none
    description := none
    extra_parameters := [] }

/-- Modelled from the spec: a content line of the output document as
produced by the `ics` crate (not among the sources) — a property name,
an ordered list of rendered `(parameter-name, parameter-value)` pairs,
and a value. -/
structure ContentLine where
  name : String
  params : List (String × String)
  value : String
  deriving DecidableEq, Repr

/-- Modelled from the spec: the `ics` crate's rendering of one content
line, `NAME;PARAM=VALUE;…:VALUE` — no folding or wrapping of long
lines, matching the document grammar of the spec and the expected
output in the repository's builder tests. -/
def renderLine (l : ContentLine) : String :=
  l.name ++ String.join (l.params.map (fun p => ";" ++ p.1 ++ "=" ++ p.2)) ++ ":" ++ l.value

/-- Modelled from the spec: full document text from its content lines —
each line rendered unfolded and terminated by CRLF. -/
def linesToIcs (ls : List ContentLine) : String :=
  String.join (ls.map (fun l => renderLine l ++ "\r\n"))

/-- `ical_to_ics_property` from `src/ical/builder.rs`: re-expresses a
pass-through property with its original name, its value (empty string
when none was recorded), and each parameter key's values joined into a
single `;`-separated string. -/
def ical_to_ics_property (prop : Property) : ContentLine :=
  { name := prop.name
    params := (prop.params.getD []).map (fun kv => (kv.1, String.intercalate ";" kv.2))
    value := prop.value.getD "" }

/-- The content lines of `build_from_event` from `src/ical/builder.rs`:
the `VCALENDAR` envelope and the `VEVENT` component's properties in
push order (`UID`/`DTSTAMP` fixed by the `ics` crate's constructor,
then the pushes of the source in order). -/
def eventLines (event : Event) : List ContentLine :=
  [⟨"BEGIN", [], "VCALENDAR"⟩,
   ⟨"VERSION", [], "2.0"⟩,
   ⟨"PRODID", [], event.ical_prod_id⟩,
   ⟨"BEGIN", [], "VEVENT"⟩,
   ⟨"UID", [], event.uid⟩,
   ⟨"DTSTAMP", [], format_date_time event.last_modified⟩]
  ++ (match event.creation_date with
      | some dt => [⟨"CREATED", [], format_date_time dt⟩]
      | none => [])
  ++ (if event.full_day then
        [⟨"DTSTART", [("VALUE", "DATE")], format_date event.start⟩,
         ⟨"DTEND", [("VALUE", "DATE")], format_date event.end_⟩]
      else
        [⟨"DTSTART", [], format_date_time event.start⟩,
         ⟨"DTEND", [], format_date_time event.end_⟩])
  ++ [⟨"SUMMARY", [], event.name⟩,
      ⟨"LAST-MODIFIED", [], format_date_time event.last_modified⟩]
  ++ (match event.location with
      | some location => [⟨"LOCATION", [], location⟩]
      | none => [])
  ++ (match event.description with
      | some description => [⟨"DESCRIPTION", [], description⟩]
      | none => [])
  ++ (match event.repeat_string with
      | some r => [⟨"RRULE", [], r⟩]
      | none => [])
  ++ [⟨"END", [], "VEVENT"⟩,
      ⟨"END", [], "VCALENDAR"⟩]

/-- `build_from_event` from `src/ical/builder.rs`. -/
def build_from_event (event : Event) : Except String String :=
  .ok (linesToIcs (eventLines event))

/-- The content lines of `build_from_task` from `src/ical/builder.rs`:
the `VCALENDAR` envelope and the `VTODO` component's properties in push
order, with the completion-status match and the pass-through extension
properties appended last, before `END`. -/
def taskLines (task : Task) : List ContentLine :=
  [⟨"BEGIN", [], "VCALENDAR"⟩,
   ⟨"VERSION", [], "2.0"⟩,
   ⟨"PRODID", [], task.ical_prod_id⟩,
   ⟨"BEGIN", [], "VTODO"⟩,
   ⟨"UID", [], task.uid⟩,
   ⟨"DTSTAMP", [], format_date_time task.last_modified⟩]
  ++ (match task.creation_date with
      | some dt => [⟨"CREATED", [], format_date_time dt⟩]
      | none => [])
  ++ [⟨"LAST-MODIFIED", [], format_date_time task.last_modified⟩,
      ⟨"SUMMARY", [], task.name⟩]
  ++ (match task.completion_status with
      | .Uncompleted => [⟨"STATUS", [], "NEEDS-ACTION"⟩]
      | .Completed completion_date =>
        [⟨"PERCENT-COMPLETE", [], "100"⟩]
        ++ (match completion_date with
            | some dt => [⟨"COMPLETED", [], format_date_time dt⟩]
            | none => [])
        ++ [⟨"STATUS", [], "COMPLETED"⟩])
  ++ task.extra_parameters.map ical_to_ics_property
  ++ [⟨"END", [], "VTODO"⟩,
      ⟨"END", [], "VCALENDAR"⟩]

/-- `build_from_task` from `src/ical/builder.rs`. -/
def build_from_task (task : Task) : Except String String :=
  .ok (linesToIcs (taskLines task))

/-- `build_from` from `src/ical/builder.rs`: dispatch on the item
variant. -/
def build_from : Item → Except String String
  | .Task t => build_from_task t
  | .Event e => build_from_event e

/-- The content lines underlying `build_from`. -/
def itemLines : Item → List ContentLine
  | .Task t => taskLines t
  | .Event e => eventLines e

/-- The item's product id (`ical_prod_id` of either variant). -/
def Item.ical_prod_id : Item → String
  | .Task t => t.ical_prod_id
  | .Event e => e.ical_prod_id

/-- A concrete instant, used to instantiate the theorems below. -/
def sampleDateTime : DateTime :=
  ⟨2024, 1, 15, 10, 30, 0⟩

/-- A concrete completed task with no completion timestamp and no
pass-through properties. -/
def sampleTask : Task :=
  { uid := "some-task-uid"
    url := "http://my.calend.ar/id/some-task-uid.ics"
    ical_prod_id := "-//My org//My product//EN"
    sync_status := .Synced
    last_modified := sampleDateTime
    creation_date := some sampleDateTime
    name := "Buy milk"
    completion_status := .Completed none
    extra_parameters := [] }

/-- A concrete timed event with a weekly recurrence. -/
def sampleEvent : Event :=
  { uid := "some-event-uid"
    url := "http://my.calend.ar/id/some-event-uid.ics"
    ical_prod_id := "-//My org//My product//EN"
    sync_status := .NotSynced
    last_modified := sampleDateTime
    creation_date := some sampleDateTime
    name := "Weekly meeting"
    full_day := false
    start := sampleDateTime
    end_ := ⟨2024, 1, 15, 11, 30, 0⟩
    location := none
    repeat_ := some [("FREQ", "WEEKLY"), ("BYDAY", "MO")]
    description := none
    extra_parameters := [] }

theorem digitChar_isDigit {n : Nat} (h : n < 10) : (Nat.digitChar n).isDigit = true := by
  interval_cases n <;> decide

theorem natDigitsAux_isDigit (fuel n : Nat) : ∀ c ∈ natDigitsAux fuel n, c.isDigit = true := by
  induction fuel generalizing n with
  | zero => intro c hc; simp [natDigitsAux] at hc
  | succ fuel ih =>
    intro c hc
    rw [natDigitsAux] at hc
    split at hc
    · next h => simp at hc; subst hc; exact digitChar_isDigit h
    · next h =>
      rcases List.mem_append.mp hc with h1 | h2
      · exact ih _ c h1
      · simp at h2; subst h2; exact digitChar_isDigit (Nat.mod_lt _ (by omega))

theorem zeroPad_isDigit (w n : Nat) : ∀ c ∈ zeroPad w n, c.isDigit = true := by
  intro c hc
  rcases List.mem_append.mp hc with h1 | h2
  · rw [List.eq_of_mem_replicate h1]; decide
  · exact natDigitsAux_isDigit _ _ c h2

/-- A rendered calendar date consists of decimal digits only: it has no
time component, no `T` separator and no `Z` suffix. -/
theorem format_date_all_digits (dt : DateTime) :
    (format_date dt).data.all Char.isDigit = true := by
  rw [List.all_eq_true]
  intro c hc
  simp only [format_date] at hc
  rcases List.mem_append.mp hc with h | h
  · rcases List.mem_append.mp h with h | h
    · exact zeroPad_isDigit _ _ c h
    · exact zeroPad_isDigit _ _ c h
  · exact zeroPad_isDigit _ _ c h

/-- A rendered date-time always ends with the `Z` UTC suffix. -/
theorem format_date_time_last (dt : DateTime) :
    (format_date_time dt).data.getLast? = some 'Z' := by
  simp only [format_date_time]
  rw [show (zeroPad 4 dt.year ++ zeroPad 2 dt.month ++ zeroPad 2 dt.day ++ ['T']
        ++ zeroPad 2 dt.hour ++ zeroPad 2 dt.minute ++ zeroPad 2 dt.second ++ ['Z'])
      = ((zeroPad 4 dt.year ++ zeroPad 2 dt.month ++ zeroPad 2 dt.day ++ ['T']
        ++ zeroPad 2 dt.hour ++ zeroPad 2 dt.minute ++ zeroPad 2 dt.second) ++ ['Z']) from rfl]
  exact List.getLast?_concat _

/-- The `BEGIN`/`END` structure of an event document. -/
theorem eventLines_filter_begin_end (e : Event) :
    (eventLines e).filter (fun l => l.name == "BEGIN" || l.name == "END") =
      [⟨"BEGIN", [], "VCALENDAR"⟩, ⟨"BEGIN", [], "VEVENT"⟩,
       ⟨"END", [], "VEVENT"⟩, ⟨"END", [], "VCALENDAR"⟩] := by
  unfold eventLines
  cases e.creation_date <;> cases e.full_day <;>
    cases e.location <;> cases e.description <;> cases e.repeat_string <;>
    simp [List.filter_append, List.filter]

/-- The `BEGIN`/`END` structure of a task document, provided no
pass-through property reuses those two names. -/
theorem taskLines_filter_begin_end (t : Task)
    (h : ∀ p ∈ t.extra_parameters, p.name ≠ "BEGIN" ∧ p.name ≠ "END") :
    (taskLines t).filter (fun l => l.name == "BEGIN" || l.name == "END") =
      [⟨"BEGIN", [], "VCALENDAR"⟩, ⟨"BEGIN", [], "VTODO"⟩,
       ⟨"END", [], "VTODO"⟩, ⟨"END", [], "VCALENDAR"⟩] := by
  have hextra : (t.extra_parameters.map ical_to_ics_property).filter
      (fun l => l.name == "BEGIN" || l.name == "END") = [] := by
    rw [List.filter_map, List.filter_eq_nil_iff.mpr, List.map_nil]
    intro p hp
    obtain ⟨h1, h2⟩ := h p hp
    simp [ical_to_ics_property, h1, h2]
  unfold taskLines
  cases t.creation_date <;>
    rcases t.completion_status with _ | (_ | cd) <;>
    simp [List.filter_append, List.filter, hextra]

/-- C1: for every Event, `build_from_event` emits `DTSTART`/`DTEND` in
exactly one of two mutually exclusive encodings matching `full_day`:
when `full_day` is true both lines carry the `VALUE=DATE` parameter and
a date-only `YYYYMMDD` value (digits only, hence no time component);
when `full_day` is false both lines carry no parameter and a
`YYYYMMDDTHHMMSSZ` date-time value, which is `Z`-suffixed. -/
theorem c1_dtstart_dtend_match_full_day (e : Event) :
    ((eventLines e).filter (fun l => l.name == "DTSTART" || l.name == "DTEND") =
      if e.full_day then
        [⟨"DTSTART", [("VALUE", "DATE")], format_date e.start⟩,
         ⟨"DTEND", [("VALUE", "DATE")], format_date e.end_⟩]
      else
        [⟨"DTSTART", [], format_date_time e.start⟩,
         ⟨"DTEND", [], format_date_time e.end_⟩])
    ∧ ((format_date e.start).data.all Char.isDigit = true
      ∧ (format_date e.end_).data.all Char.isDigit = true)
    ∧ ((format_date_time e.start).data.getLast? = some 'Z'
      ∧ (format_date_time e.end_).data.getLast? = some 'Z') := by
  refine ⟨?_, ⟨format_date_all_digits _, format_date_all_digits _⟩,
    format_date_time_last _, format_date_time_last _⟩
  unfold eventLines
  cases e.creation_date <;> cases e.full_day <;>
    cases e.location <;> cases e.description <;> cases e.repeat_string <;>
    simp [List.filter_append, List.filter]

/-- C2: for every Task whose pass-through properties do not reuse the
natively modelled completion names, `build_from_task` emits exactly one
of the two mutually exclusive completion encodings: `STATUS:NEEDS-ACTION`
alone when uncompleted, and `PERCENT-COMPLETE:100`, then a `COMPLETED`
timestamp line exactly when one is recorded, then `STATUS:COMPLETED`,
in that fixed order, when completed — never both, never neither. -/
theorem c2_completion_encoding (t : Task)
    (h : ∀ p ∈ t.extra_parameters,
      p.name ≠ "STATUS" ∧ p.name ≠ "PERCENT-COMPLETE" ∧ p.name ≠ "COMPLETED") :
    (taskLines t).filter
        (fun l => l.name == "STATUS" || l.name == "PERCENT-COMPLETE" || l.name == "COMPLETED") =
      (match t.completion_status with
       | .Uncompleted => [⟨"STATUS", [], "NEEDS-ACTION"⟩]
       | .Completed completion_date =>
         [⟨"PERCENT-COMPLETE", [], "100"⟩]
         ++ (match completion_date with
             | some dt => [⟨"COMPLETED", [], format_date_time dt⟩]
             | none => [])
         ++ [⟨"STATUS", [], "COMPLETED"⟩]) := by
  have hextra : (t.extra_parameters.map ical_to_ics_property).filter
      (fun l => l.name == "STATUS" || l.name == "PERCENT-COMPLETE" || l.name == "COMPLETED") = [] := by
    rw [List.filter_map, List.filter_eq_nil_iff.mpr, List.map_nil]
    intro p hp
    obtain ⟨h1, h2, h3⟩ := h p hp
    simp [ical_to_ics_property, h1, h2, h3]
  unfold taskLines
  cases t.creation_date <;>
    rcases t.completion_status with _ | (_ | cd) <;>
    simp [List.filter_append, List.filter, hextra]

/-- Witness for C2: the sample completed task (no completion timestamp,
no pass-through properties) satisfies the hypothesis and yields the
`PERCENT-COMPLETE:100` / `STATUS:COMPLETED` encoding with no
`COMPLETED` line. -/
theorem c2_completion_encoding_witness :
    (∀ p ∈ sampleTask.extra_parameters,
      p.name ≠ "STATUS" ∧ p.name ≠ "PERCENT-COMPLETE" ∧ p.name ≠ "COMPLETED")
    ∧ (taskLines sampleTask).filter
        (fun l => l.name == "STATUS" || l.name == "PERCENT-COMPLETE" || l.name == "COMPLETED") =
      [⟨"PERCENT-COMPLETE", [], "100"⟩, ⟨"STATUS", [], "COMPLETED"⟩] :=
  ⟨by decide, c2_completion_encoding sampleTask (by decide)⟩

/-- C3: for every Event, and for every Task whose pass-through
properties do not reuse the name `CREATED`, the output contains a
`CREATED` line if and only if `creation_date` is `Some`, and its value
is then the creation date rendered by the shared `YYYYMMDDTHHMMSSZ`
formatter. -/
theorem c3_created_iff_creation_date (e : Event) (t : Task)
    (h : ∀ p ∈ t.extra_parameters, p.name ≠ "CREATED") :
    ((eventLines e).filter (fun l => l.name == "CREATED") =
      match e.creation_date with
      | some dt => [⟨"CREATED", [], format_date_time dt⟩]
      | none => [])
    ∧ ((taskLines t).filter (fun l => l.name == "CREATED") =
      match t.creation_date with
      | some dt => [⟨"CREATED", [], format_date_time dt⟩]
      | none => []) := by
  constructor
  · unfold eventLines
    cases e.creation_date <;> cases e.full_day <;>
      cases e.location <;> cases e.description <;> cases e.repeat_string <;>
      simp [List.filter_append, List.filter]
  · have hextra : (t.extra_parameters.map ical_to_ics_property).filter
        (fun l => l.name == "CREATED") = [] := by
      rw [List.filter_map, List.filter_eq_nil_iff.mpr, List.map_nil]
      intro p hp
      simp [ical_to_ics_property, h p hp]
    unfold taskLines
    cases t.creation_date <;>
      rcases t.completion_status with _ | (_ | cd) <;>
      simp [List.filter_append, List.filter, hextra]

/-- Witness for C3: the sample event and task both have
`creation_date = some sampleDateTime` and an empty pass-through list,
and both documents carry exactly one `CREATED` line with that instant's
rendering. -/
theorem c3_created_iff_creation_date_witness :
    (∀ p ∈ sampleTask.extra_parameters, p.name ≠ "CREATED")
    ∧ ((eventLines sampleEvent).filter (fun l => l.name == "CREATED") =
        [⟨"CREATED", [], "20240115T103000Z"⟩])
    ∧ ((taskLines sampleTask).filter (fun l => l.name == "CREATED") =
        [⟨"CREATED", [], "20240115T103000Z"⟩]) :=
  ⟨by decide, c3_created_iff_creation_date sampleEvent sampleTask (by decide)⟩

/-- C4: for every Event with a recurrence set, `repeat_string` joins
the stored pairs as `KEY=VALUE` segments separated by `;` (no trailing
separator), preserving order with no deduplication, and
`build_from_event` emits that string as the single `RRULE` line; the
recurrence `[(FREQ, WEEKLY), (BYDAY, MO)]` serializes to the line
`RRULE:FREQ=WEEKLY;BYDAY=MO`, and a duplicated pair is kept
duplicated. -/
theorem c4_rrule_from_repeat_string (e : Event) (r : List (String × String))
    (h : e.repeat_ = some r) :
    e.repeat_string = some (String.intercalate ";" (r.map (fun kv => kv.1 ++ "=" ++ kv.2)))
    ∧ (eventLines e).filter (fun l => l.name == "RRULE") =
        [⟨"RRULE", [], String.intercalate ";" (r.map (fun kv => kv.1 ++ "=" ++ kv.2))⟩]
    ∧ (e.set_repeat [("FREQ", "WEEKLY"), ("BYDAY", "MO")]).repeat_string =
        some "FREQ=WEEKLY;BYDAY=MO"
    ∧ (eventLines (e.set_repeat [("FREQ", "WEEKLY"), ("BYDAY", "MO")])).filter
        (fun l => l.name == "RRULE") = [⟨"RRULE", [], "FREQ=WEEKLY;BYDAY=MO"⟩]
    ∧ renderLine ⟨"RRULE", [], "FREQ=WEEKLY;BYDAY=MO"⟩ = "RRULE:FREQ=WEEKLY;BYDAY=MO"
    ∧ (e.set_repeat [("FREQ", "WEEKLY"), ("FREQ", "WEEKLY")]).repeat_string =
        some "FREQ=WEEKLY;FREQ=WEEKLY" := by
  have hrrule : ∀ (ev : Event) (s : String), ev.repeat_string = some s →
      (eventLines ev).filter (fun l => l.name == "RRULE") = [⟨"RRULE", [], s⟩] := by
    intro ev s hs
    unfold eventLines
    rw [hs]
    cases ev.creation_date <;> cases ev.full_day <;>
      cases ev.location <;> cases ev.description <;>
      simp [List.filter_append, List.filter]
  refine ⟨?_, ?_, by rfl, ?_, by rfl, by rfl⟩
  · simp [Event.repeat_string, h]
  · exact hrrule e _ (by simp [Event.repeat_string, h])
  · exact hrrule _ _ (by rfl)

/-- Witness for C4: the sample event stores exactly the recurrence
`[(FREQ, WEEKLY), (BYDAY, MO)]`, and its document carries the single
line `RRULE:FREQ=WEEKLY;BYDAY=MO`. -/
theorem c4_rrule_from_repeat_string_witness :
    (sampleEvent.repeat_ = some [("FREQ", "WEEKLY"), ("BYDAY", "MO")])
    ∧ (sampleEvent.repeat_string =
        some (String.intercalate ";"
          (([("FREQ", "WEEKLY"), ("BYDAY", "MO")]).map (fun kv => kv.1 ++ "=" ++ kv.2)))
      ∧ (eventLines sampleEvent).filter (fun l => l.name == "RRULE") =
          [⟨"RRULE", [], String.intercalate ";"
            (([("FREQ", "WEEKLY"), ("BYDAY", "MO")]).map (fun kv => kv.1 ++ "=" ++ kv.2))⟩]
      ∧ (sampleEvent.set_repeat [("FREQ", "WEEKLY"), ("BYDAY", "MO")]).repeat_string =
          some "FREQ=WEEKLY;BYDAY=MO"
      ∧ (eventLines (sampleEvent.set_repeat [("FREQ", "WEEKLY"), ("BYDAY", "MO")])).filter
          (fun l => l.name == "RRULE") = [⟨"RRULE", [], "FREQ=WEEKLY;BYDAY=MO"⟩]
      ∧ renderLine ⟨"RRULE", [], "FREQ=WEEKLY;BYDAY=MO"⟩ = "RRULE:FREQ=WEEKLY;BYDAY=MO"
      ∧ (sampleEvent.set_repeat [("FREQ", "WEEKLY"), ("FREQ", "WEEKLY")]).repeat_string =
          some "FREQ=WEEKLY;FREQ=WEEKLY") :=
  ⟨by decide, c4_rrule_from_repeat_string sampleEvent [("FREQ", "WEEKLY"), ("BYDAY", "MO")] (by decide)⟩

/-- C5: for every Task, the document consists of the modelled fields,
then every stored pass-through property in its original order — each
with its original name, its value (empty string when none was
recorded), and each parameter key's values flattened into one
`;`-joined string — then the closing `END` lines; the property
`(X-CUSTOM, some val, PARAM ↦ [a, b])` renders as
`X-CUSTOM;PARAM=a;b:val`. -/
theorem c5_task_extra_properties_appended (t : Task) :
    (taskLines t =
      (taskLines { t with extra_parameters := [] }).dropLast.dropLast
        ++ t.extra_parameters.map (fun p =>
             ({ name := p.name
                params := (p.params.getD []).map (fun kv => (kv.1, String.intercalate ";" kv.2))
                value := p.value.getD "" } : ContentLine))
        ++ [⟨"END", [], "VTODO"⟩, ⟨"END", [], "VCALENDAR"⟩])
    ∧ renderLine (ical_to_ics_property ⟨"X-CUSTOM", some [("PARAM", ["a", "b"])], some "val"⟩) =
        "X-CUSTOM;PARAM=a;b:val" := by
  refine ⟨?_, by decide⟩
  have hdrop : ∀ (l : List ContentLine) (a b : ContentLine),
      (l ++ [a, b]).dropLast.dropLast = l := by
    intro l a b
    rw [show l ++ [a, b] = (l ++ [a]) ++ [b] from by simp,
      List.dropLast_concat, List.dropLast_concat]
  obtain ⟨uid, url, prod, ss, lm, cd, nm, cs, ex⟩ := t
  simp only [taskLines, List.map_nil, List.append_nil, hdrop]
  rfl

/-- C6: equality of two Events is field-by-field over `uid`, `url`,
`ical_prod_id`, `sync_status`, `last_modified`, `creation_date`,
`name`, `full_day`, `start`, `end`, `location`, the recurrence sequence
(order included, being list equality), and `description`; two Events
that differ only in their pass-through `extra_parameters` compare
equal. -/
theorem c6_event_equality_ignores_extra_parameters (a b : Event) :
    (Event.eq a b = true ↔
      (a.uid = b.uid ∧ a.url = b.url ∧ a.ical_prod_id = b.ical_prod_id
        ∧ a.sync_status = b.sync_status ∧ a.last_modified = b.last_modified
        ∧ a.creation_date = b.creation_date ∧ a.name = b.name ∧ a.full_day = b.full_day
        ∧ a.start = b.start ∧ a.end_ = b.end_ ∧ a.location = b.location
        ∧ a.repeat_ = b.repeat_ ∧ a.description = b.description))
    ∧ (∀ ps, Event.eq a { a with extra_parameters := ps } = true) := by
  constructor
  · simp [Event.eq, Bool.and_eq_true, beq_iff_eq, and_assoc]
  · intro ps
    simp [Event.eq]

/-- C7: `Event::new` computes the URL by joining `<uid>.ics` onto the
parent calendar URL and substitutes the randomized fallback URL under
the same parent exactly when the join fails (the field is never unset);
`creation_date` and `last_modified` are both stamped to the
construction-time instant, and `location`, recurrence and `description`
start absent with an empty pass-through list. -/
theorem c7_event_new_fields (urlJoin : Url → String → Option Url) (randomUrl : Url → Url)
    (org product uid : String) (parent : Url) (name : String) (full_day : Bool)
    (start end_ : DateTime) (ss : SyncStatus) (now : DateTime) :
    (Event.new urlJoin randomUrl org product uid parent name full_day start end_ ss now).url =
      (match urlJoin parent (uid ++ ".ics") with
       | some u => u
       | none => randomUrl parent)
    ∧ (Event.new urlJoin randomUrl org product uid parent name full_day start end_ ss now).creation_date = some now
    ∧ (Event.new urlJoin randomUrl org product uid parent name full_day start end_ ss now).last_modified = now
    ∧ (Event.new urlJoin randomUrl org product uid parent name full_day start end_ ss now).location = none
    ∧ (Event.new urlJoin randomUrl org product uid parent name full_day start end_ ss now).repeat_ = none
    ∧ (Event.new urlJoin randomUrl org product uid parent name full_day start end_ ss now).description = none
    ∧ (Event.new urlJoin randomUrl org product uid parent name full_day start end_ ss now).extra_parameters = [] := by
  refine ⟨?_, rfl, rfl, rfl, rfl, rfl, rfl⟩
  cases h : urlJoin parent (uid ++ ".ics") <;> simp [Event.new, h]

/-- C8: each setter of an Event — `set_sync_status`, `set_location`,
`set_repeat`, `set_description` — updates only its own field and leaves
every other field unchanged; in particular no setter touches
`last_modified`. -/
theorem c8_setters_frame (e : Event) (ss : SyncStatus) (loc : String)
    (rep : List (String × String)) (desc : String) :
    ((e.set_sync_status ss).sync_status = ss
      ∧ (e.set_sync_status ss).uid = e.uid
      ∧ (e.set_sync_status ss).url = e.url
      ∧ (e.set_sync_status ss).ical_prod_id = e.ical_prod_id
      ∧ (e.set_sync_status ss).last_modified = e.last_modified
      ∧ (e.set_sync_status ss).creation_date = e.creation_date
      ∧ (e.set_sync_status ss).name = e.name
      ∧ (e.set_sync_status ss).full_day = e.full_day
      ∧ (e.set_sync_status ss).start = e.start
      ∧ (e.set_sync_status ss).end_ = e.end_
      ∧ (e.set_sync_status ss).location = e.location
      ∧ (e.set_sync_status ss).repeat_ = e.repeat_
      ∧ (e.set_sync_status ss).description = e.description
      ∧ (e.set_sync_status ss).extra_parameters = e.extra_parameters)
    ∧ ((e.set_location loc).location = some loc
      ∧ (e.set_location loc).uid = e.uid
      ∧ (e.set_location loc).url = e.url
      ∧ (e.set_location loc).ical_prod_id = e.ical_prod_id
      ∧ (e.set_location loc).sync_status = e.sync_status
      ∧ (e.set_location loc).last_modified = e.last_modified
      ∧ (e.set_location loc).creation_date = e.creation_date
      ∧ (e.set_location loc).name = e.name
      ∧ (e.set_location loc).full_day = e.full_day
      ∧ (e.set_location loc).start = e.start
      ∧ (e.set_location loc).end_ = e.end_
      ∧ (e.set_location loc).repeat_ = e.repeat_
      ∧ (e.set_location loc).description = e.description
      ∧ (e.set_location loc).extra_parameters = e.extra_parameters)
    ∧ ((e.set_repeat rep).repeat_ = some rep
      ∧ (e.set_repeat rep).uid = e.uid
      ∧ (e.set_repeat rep).url = e.url
      ∧ (e.set_repeat rep).ical_prod_id = e.ical_prod_id
      ∧ (e.set_repeat rep).sync_status = e.sync_status
      ∧ (e.set_repeat rep).last_modified = e.last_modified
      ∧ (e.set_repeat rep).creation_date = e.creation_date
      ∧ (e.set_repeat rep).name = e.name
      ∧ (e.set_repeat rep).full_day = e.full_day
      ∧ (e.set_repeat rep).start = e.start
      ∧ (e.set_repeat rep).end_ = e.end_
      ∧ (e.set_repeat rep).location = e.location
      ∧ (e.set_repeat rep).description = e.description
      ∧ (e.set_repeat rep).extra_parameters = e.extra_parameters)
    ∧ ((e.set_description desc).description = some desc
      ∧ (e.set_description desc).uid = e.uid
      ∧ (e.set_description desc).url = e.url
      ∧ (e.set_description desc).ical_prod_id = e.ical_prod_id
      ∧ (e.set_description desc).sync_status = e.sync_status
      ∧ (e.set_description desc).last_modified = e.last_modified
      ∧ (e.set_description desc).creation_date = e.creation_date
      ∧ (e.set_description desc).name = e.name
      ∧ (e.set_description desc).full_day = e.full_day
      ∧ (e.set_description desc).start = e.start
      ∧ (e.set_description desc).end_ = e.end_
      ∧ (e.set_description desc).location = e.location
      ∧ (e.set_description desc).repeat_ = e.repeat_
      ∧ (e.set_description desc).extra_parameters = e.extra_parameters) := by
  simp [Event.set_sync_status, Event.set_location, Event.set_repeat, Event.set_description]

/-- C9: for every item (with a well-formed task's pass-through names),
the builder's output is a single `VCALENDAR` document: every content
line is rendered in one unfolded piece terminated by CRLF, the document
begins with `BEGIN:VCALENDAR`, `VERSION:2.0` and `PRODID:` of the
item's product id, and the only `BEGIN`/`END` lines are the single
`VCALENDAR` envelope around the single component. -/
theorem c9_document_envelope (item : Item)
    (h : ∀ t, item = .Task t → ∀ p ∈ t.extra_parameters, p.name ≠ "BEGIN" ∧ p.name ≠ "END") :
    build_from item = .ok (String.join ((itemLines item).map (fun l => renderLine l ++ "\r\n")))
    ∧ (itemLines item).take 3 =
        [⟨"BEGIN", [], "VCALENDAR"⟩, ⟨"VERSION", [], "2.0"⟩,
         ⟨"PRODID", [], item.ical_prod_id⟩]
    ∧ (itemLines item).filter (fun l => l.name == "BEGIN" || l.name == "END") =
        (match item with
         | .Event _ => [⟨"BEGIN", [], "VCALENDAR"⟩, ⟨"BEGIN", [], "VEVENT"⟩,
                        ⟨"END", [], "VEVENT"⟩, ⟨"END", [], "VCALENDAR"⟩]
         | .Task _ => [⟨"BEGIN", [], "VCALENDAR"⟩, ⟨"BEGIN", [], "VTODO"⟩,
                       ⟨"END", [], "VTODO"⟩, ⟨"END", [], "VCALENDAR"⟩]) := by
  cases item with
  | Event e => exact ⟨rfl, rfl, eventLines_filter_begin_end e⟩
  | Task t => exact ⟨rfl, rfl, taskLines_filter_begin_end t (h t rfl)⟩

/-- Witness for C9: the sample event's document satisfies the envelope
properties (the task-side hypothesis is vacuous for an event). -/
theorem c9_document_envelope_witness :
    (∀ t, Item.Event sampleEvent = Item.Task t →
      ∀ p ∈ t.extra_parameters, p.name ≠ "BEGIN" ∧ p.name ≠ "END")
    ∧ build_from (Item.Event sampleEvent) =
        .ok (String.join ((itemLines (Item.Event sampleEvent)).map (fun l => renderLine l ++ "\r\n")))
    ∧ (itemLines (Item.Event sampleEvent)).take 3 =
        [⟨"BEGIN", [], "VCALENDAR"⟩, ⟨"VERSION", [], "2.0"⟩,
         ⟨"PRODID", [], "-//My org//My product//EN"⟩]
    ∧ (itemLines (Item.Event sampleEvent)).filter
        (fun l => l.name == "BEGIN" || l.name == "END") =
        [⟨"BEGIN", [], "VCALENDAR"⟩, ⟨"BEGIN", [], "VEVENT"⟩,
         ⟨"END", [], "VEVENT"⟩, ⟨"END", [], "VCALENDAR"⟩] :=
  ⟨(fun _ ht => nomatch ht), c9_document_envelope (Item.Event sampleEvent) (fun _ ht => nomatch ht)⟩

/-- C10: the output of `build_from_event` does not depend on the
Event's stored pass-through properties: two Events that differ only in
`extra_parameters` serialize to the same text. -/
theorem c10_event_output_independent_of_extra_parameters (e : Event) (ps qs : List Property) :
    build_from_event { e with extra_parameters := ps } =
      build_from_event { e with extra_parameters := qs } := rfl

end KitchenFridge
